import Mathlib

/-!
Shallow embedding of the NBA-Shot-Predictor streaming core
(`src/server.py` and `src/NBA_data_pipeline.py`).

Conventions of the embedding:
* Python floats are idealised as rationals `ℚ` (exact arithmetic); where the
  source applies the transcendental functions `math.sqrt`, `math.cos`,
  `math.sin` the embedding abstracts them: `math.sqrt` becomes an explicit
  function parameter `sqrtFn : ℚ → ℚ` quantified over in the theorems (with
  correctness hypotheses `0 ≤ sqrtFn q ∧ (sqrtFn q)^2 = q` added exactly where
  a claim depends on the value being the true square root), and the random
  draw `angle = random.uniform(0, math.pi)` is re-parameterised by directly
  drawing the pair `(cos angle, sin angle)` from the oracle.
* All randomness (`random.random`, `random.choice`, `random.uniform`) is an
  explicit oracle (`TickRand`); every theorem quantifies over all oracle
  values, so no distributional assumption is made.
* Python runtime faults that the claims talk about are modelled with
  `Except`: `NameError` for the unbound `target_x`/`target_y` in the movement
  loop, `IndexError` for `random.choice` on an empty list, `AttributeError`
  for the missing `self.logger` of `StreamProcessor`.
* Wall-clock fields (`timestamp`, `datetime.now()`) are omitted: they are
  environment input, not state the claims mention.
-/

namespace NBA

/-- The game-state record stored in the `game_state` part of the value and
mutated by `simulate_game_update` (src/server.py lines 301-340).  The
`timestamp` field (set from `datetime.now()`) is omitted as wall-clock
input. -/
structure GameState where
  game_id : String
  shot_clock : ℚ
  game_clock : ℚ
  quarter : ℤ
  score_home : ℤ
  score_away : ℤ
  last_action : String
deriving Repr, DecidableEq

/-- One entry of the `player_positions` list (src/server.py test data,
lines 245-279; the keys read and written by `simulate_game_update`). -/
structure Player where
  player_id : String
  role : String
  x : ℚ
  y : ℚ
  velocity_x : ℚ
  velocity_y : ℚ
  team_id : String
  is_shooting : Bool
  shot_made : Bool
deriving Repr, DecidableEq

/-- The random draws consumed for one player's movement step
(src/server.py lines 352-371): the role-dependent target coordinates and the
speed.  For the shooting guard the source draws `angle = uniform(0, pi)` and
uses `cos angle`/`sin angle`; the oracle supplies that pair directly as
`sg_cos`, `sg_sin`. -/
structure MoveRand where
  pg_x : ℚ
  pg_y : ℚ
  sg_cos : ℚ
  sg_sin : ℚ
  c_x : ℚ
  c_y : ℚ
  speed : ℚ
deriving Repr, DecidableEq

/-- All random draws consumed by one call of `simulate_game_update`:
`shooting_chance = random.random()` (line 315), the index drawn by
`random.choice(player_positions)` (line 318), the make/miss roll
`random.random()` (line 328), and the per-player movement draws indexed by
list position. -/
structure TickRand where
  shooting_chance : ℚ
  shooter_idx : ℕ
  shot_roll : ℚ
  moves : ℕ → MoveRand

/-- Runtime faults of the tick, modelled as data: `unboundTarget` is the
Python `NameError`/`UnboundLocalError` raised when `target_x` is read before
any role branch assigned it (src/server.py lines 350-365); `emptyChoice` is
the `IndexError` of `random.choice` on an empty list (line 318). -/
inductive TickErr where
  | unboundTarget
  | emptyChoice
deriving Repr, DecidableEq

/-- Line 321: squared distance from a player to the basket reference point
`(0, 5.5)`; the source takes `math.sqrt` of this value. -/
def distSqToBasket (p : Player) : ℚ :=
  p.x ^ 2 + (p.y - 11/2) ^ 2

/-- Line 325: `shot_probability = max(0.2, 1 - (distance_to_basket / 50))`,
as a function of the distance. -/
def shot_probability (d : ℚ) : ℚ :=
  max (1/5) (1 - d / 50)

/-- Lines 310-312: the tick first clears both flags on every player. -/
def clearFlags (p : Player) : Player :=
  { p with is_shooting := false, shot_made := false }

/-- Lines 348-362: the role branch choosing the movement target.  Only the
roles `"PG"`, `"SG"`, `"C"` assign `target_x`/`target_y`; any other role
leaves the Python locals at whatever the previous loop iteration assigned
(`last`), which is `none` when no earlier iteration assigned them. -/
def roleTarget (m : MoveRand) (role : String) (last : Option (ℚ × ℚ)) :
    Option (ℚ × ℚ) :=
  if role = "PG" then some (m.pg_x, m.pg_y)
  else if role = "SG" then some (22 * m.sg_cos, 22 * m.sg_sin + 15)
  else if role = "C" then some (m.c_x, m.c_y)
  else last

/-- Lines 364-379: move one (non-shooting) player toward the target `tgt`:
normalise the direction when `distance > 0`, apply the speed, integrate one
step, then clamp `x` to `[-23, 23]` and `y` to `[2, 45]`. -/
def movePlayer (sqrtFn : ℚ → ℚ) (m : MoveRand) (p : Player) (tgt : ℚ × ℚ) :
    Player :=
  let dx := tgt.1 - p.x
  let dy := tgt.2 - p.y
  let dist := sqrtFn (dx ^ 2 + dy ^ 2)
  let p1 :=
    if dist > 0 then
      let vx := dx / dist * m.speed
      let vy := dy / dist * m.speed
      { p with velocity_x := vx, velocity_y := vy,
               x := p.x + vx, y := p.y + vy }
    else p
  { p1 with x := max (-23) (min 23 p1.x), y := max 2 (min 45 p1.y) }

/-- Prepend the processed player `p` to the rest of the loop's result,
propagating an error raised further down the list. -/
def consOk (p : Player) (e : Except TickErr (List Player)) :
    Except TickErr (List Player) :=
  match e with
  | .error err => .error err
  | .ok rest => .ok (p :: rest)

/-- Lines 343-379: the movement loop over `player_positions`.  `j` is the
list index (selecting this player's random draws), `last` the value of the
Python locals `target_x`/`target_y` left by earlier iterations.  A shooting
player is skipped (`continue`, line 345-346) without touching `last`; a
player whose role assigns no target and with no earlier assignment raises
`NameError`. -/
def moveLoop (sqrtFn : ℚ → ℚ) (moves : ℕ → MoveRand) :
    ℕ → Option (ℚ × ℚ) → List Player → Except TickErr (List Player)
  | _, _, [] => .ok []
  | j, last, p :: ps =>
    if p.is_shooting then
      consOk p (moveLoop sqrtFn moves (j + 1) last ps)
    else
      match roleTarget (moves j) p.role last with
      | none => .error .unboundTarget
      | some t =>
        consOk (movePlayer sqrtFn (moves j) p t)
          (moveLoop sqrtFn moves (j + 1) (some t) ps)

/-- Lines 306-307: both clocks decrement by their fixed per-tick amount
(2.4 and 24.0), floored at zero by `max(0, ...)`. -/
def clockStep (gs : GameState) : GameState :=
  { gs with shot_clock := max 0 (gs.shot_clock - 12/5),
            game_clock := max 0 (gs.game_clock - 24) }

/-- Lines 320-338: the game-state outcome of a shot attempt by `shooter`
(applied on top of the clock-updated state): compute the distance to the
basket `(0, 5.5)`, classify a three-pointer by `distance > 23.75`, sample
make/miss against `shot_probability`, on a make add 3 or 2 to `score_home`;
either way record the `last_action` string. -/
def shotOutcomeGS (sqrtFn : ℚ → ℚ) (r : TickRand) (gs : GameState)
    (shooter : Player) : GameState :=
  if r.shot_roll < shot_probability (sqrtFn (distSqToBasket shooter)) then
    { clockStep gs with
      score_home := (clockStep gs).score_home +
        (if sqrtFn (distSqToBasket shooter) > 95/4 then 3 else 2),
      last_action := "Player " ++ shooter.player_id ++ " made a " ++
        (if sqrtFn (distSqToBasket shooter) > 95/4 then "3-point"
         else "2-point") ++ " shot!" }
  else
    { clockStep gs with
      last_action := "Player " ++ shooter.player_id ++ " missed a " ++
        (if sqrtFn (distSqToBasket shooter) > 95/4 then "3-point"
         else "2-point") ++ " shot!" }

/-- Lines 304-340 of `simulate_game_update`: clock decrements, clearing of
all shot flags, then the `shooting_chance > 0.7` branch choosing one shooter
by `random.choice` (an `IndexError` on an empty list) and setting its flags,
or the no-attempt branch. -/
def shotPhase (sqrtFn : ℚ → ℚ) (r : TickRand) (gs : GameState)
    (players : List Player) : Except TickErr (GameState × List Player) :=
  if r.shooting_chance > 7/10 then
    match (players.map clearFlags).get?
        (r.shooter_idx % (players.map clearFlags).length) with
    | none => .error .emptyChoice
    | some shooter =>
      .ok (shotOutcomeGS sqrtFn r gs shooter,
        (players.map clearFlags).set
          (r.shooter_idx % (players.map clearFlags).length)
          { shooter with
            is_shooting := true
            shot_made :=
              decide (r.shot_roll <
                shot_probability (sqrtFn (distSqToBasket shooter))) })
  else
    .ok ({ clockStep gs with last_action := "Players moving..." },
      players.map clearFlags)

/-- src/server.py lines 290-384, `simulate_game_update` (the state
transformation on the stored snapshot; Redis plumbing, timestamp and
broadcast are outside this pure core).  Steps, in source order: clock
decrements (306-307), clearing of the shot flags (310-312), the 30%-chance
shot branch (315-340) — together `shotPhase` — then the movement loop
(343-379). -/
def simulate_game_update (sqrtFn : ℚ → ℚ) (r : TickRand) (gs : GameState)
    (players : List Player) : Except TickErr (GameState × List Player) :=
  match shotPhase sqrtFn r gs players with
  | .error e => .error e
  | .ok (gs2, ps2) =>
    match moveLoop sqrtFn r.moves 0 none ps2 with
    | .error e => .error e
    | .ok ps3 => .ok (gs2, ps3)

/-- Court bounds of the clamp at src/server.py lines 378-379. -/
def inBounds (p : Player) : Prop :=
  -23 ≤ p.x ∧ p.x ≤ 23 ∧ 2 ≤ p.y ∧ p.y ≤ 45

instance (p : Player) : Decidable (inBounds p) := by
  unfold inBounds; infer_instance

/-- Number of players flagged as shooting in a list. -/
def shooterCount (ps : List Player) : ℕ :=
  ps.countP (fun p => p.is_shooting)

/-- The flag invariant of §3 of the spec: `is_shooting = false ⇒
shot_made = false` for every player. -/
def flagsConsistent (ps : List Player) : Prop :=
  ∀ p ∈ ps, p.is_shooting = false → p.shot_made = false

instance (ps : List Player) : Decidable (flagsConsistent ps) := by
  unfold flagsConsistent; infer_instance

/-- What one movement-loop step does to one player: the shot flags are
untouched, and the player is either left as-is (a skipped shooter) or ends
inside the court bounds (a moved, clamped player). -/
def stepRel (a b : Player) : Prop :=
  b.is_shooting = a.is_shooting ∧ b.shot_made = a.shot_made ∧
    (b = a ∨ inBounds b)

end NBA

namespace Pipeline

/-! Embedding of `src/NBA_data_pipeline.py`. -/

/-- Lines 24-28: the fixed endpoint map of `fetch_game_data`. -/
def pipeline_endpoints (game_id : String) : List (String × String) :=
  [("play_by_play", "/playbyplayv2?GameID=" ++ game_id),
   ("shot_chart", "/shotchartdetail?GameID=" ++ game_id),
   ("player_tracking", "/boxscoreplayertrackv2?GameID=" ++ game_id)]

/-- Lines 37-50, `fetch_endpoint`: the transport either raises (modelled as
`none`) or yields a status code and body; status 200 returns the body, any
other status logs and returns `None`; an exception logs and returns `None`.
Both failure shapes are the data value `none`, never a raised fault. -/
def fetch_endpoint {α : Type} (response : Option (ℕ × α)) : Option α :=
  match response with
  | some (status, body) => if status = 200 then some body else none
  | none => none

/-- Lines 19-35, `fetch_game_data`: one fetch per endpoint (gathered with
`return_exceptions=True`; exceptions are already absorbed inside
`fetch_endpoint`), zipped back with the endpoint names. `responses` maps an
endpoint path to its transport outcome. -/
def fetch_game_data {α : Type} (responses : String → Option (ℕ × α))
    (game_id : String) : List (String × Option α) :=
  (pipeline_endpoints game_id).map
    (fun ne => (ne.1, fetch_endpoint (responses ne.2)))

/-- Lines 108-116, `StreamProcessor._update_game_state`: the stored dict
`current_game_data` (a map from source key to stored value, `none` for an
absent key) is merged with `dict.update`, which overwrites every fetched key
with the new value — including `None` failure markers.
(`_calculate_derived_metrics` is `pass`.) -/
def update_game_state {β : Type} (cur : String → Option β)
    (new : List (String × β)) : String → Option β :=
  fun k =>
    match new.lookup k with
    | some v => some v
    | none => cur k

/-- Python faults used by the stream-loop model. -/
inductive PyErr where
  | attributeError
  | genericError
deriving Repr, DecidableEq

/-- The attributes assigned by `StreamProcessor.__init__`
(src/NBA_data_pipeline.py lines 82-84): `pipeline` and `current_game_data`
only — in particular no `logger`. -/
def streamProcessorAttrs : List String :=
  ["pipeline", "current_game_data"]

/-- Python attribute lookup `self.<name>`: `AttributeError` when the
instance has no such attribute. -/
def lookupAttr (attrs : List String) (name : String) : Except PyErr Unit :=
  if name ∈ attrs then .ok () else .error .attributeError

/-- Lines 86-106, one iteration of `StreamProcessor.process_stream`'s
`while True` body, for an instance whose attribute set is `attrs`.
`tickResult` is the outcome of the `try` body (fetch, merge, emit); on
success the loop sleeps 1 time unit and continues with the updated state; on
an exception the handler first evaluates `self.logger` (line 105) — which
raises `AttributeError` if the instance has no `logger` — and only then
sleeps the 5-unit back-off.  The returned pair is (state for the next
iteration, sleep duration); an `.error` outcome means the exception escaped
`process_stream` and the loop crashed. -/
def process_stream_step {St : Type} (attrs : List String)
    (tickResult : Except PyErr St) (s : St) : Except PyErr (St × ℕ) :=
  match tickResult with
  | .ok s' => .ok (s', 1)
  | .error _ =>
    match lookupAttr attrs "logger" with
    | .ok _ => .ok (s, 5)
    | .error e => .error e

end Pipeline

namespace Hub

/-! Embedding of `broadcast_update` (src/server.py lines 92-106). -/

/-- A subscriber handle (a websocket object identity). -/
abbrev WS := ℕ

/-- Lines 92-106, `broadcast_update`, for one session's connection list
`conns` (the value of `active_connections[game_id]`; when the session has no
entry the function is a no-op).  `sendOk ws` tells whether
`websocket.send_json` succeeds for handle `ws`.  The source iterates over
every handle, catching the exception of a failed send and collecting the
failer into `disconnected`; afterwards each collected handle is removed from
the list (first occurrence, Python `list.remove`).  Returns (the handles
delivered to, the registry after cleanup); the function is total: no
exception escapes. -/
def broadcast_update (sendOk : WS → Bool) (conns : List WS) :
    List WS × List WS :=
  let disconnected := conns.filter (fun ws => !(sendOk ws))
  (conns.filter (fun ws => sendOk ws),
   disconnected.foldl (fun acc ws => acc.erase ws) conns)

end Hub

namespace NBA

/-! ### Concrete fixtures (the seed state of `create_test_data`,
src/server.py lines 234-280, and concrete random oracles) used by the
witness theorems. -/

/-- A player entry as seeded by `create_test_data`: zero velocity, team
`team1`, flags cleared. -/
def playerAt (id role : String) (x y : ℚ) : Player :=
  { player_id := id, role := role, x := x, y := y,
    velocity_x := 0, velocity_y := 0, team_id := "team1",
    is_shooting := false, shot_made := false }

/-- The seeded game state of `create_test_data` (shot clock 24, game clock
720, first quarter, scores 0). -/
def testGS : GameState :=
  { game_id := "g1", shot_clock := 24, game_clock := 720, quarter := 1,
    score_home := 0, score_away := 0, last_action := "Game started" }

/-- The three seeded players of `create_test_data`: PG at (0, 30), SG at
(-15, 25), C at (0, 10). -/
def testPlayers : List Player :=
  [playerAt "PG" "PG" 0 30, playerAt "SG" "SG" (-15) 25,
   playerAt "C" "C" 0 10]

/-- Same roster with the PG moved to (0, 25) (the two-point scenario of the
spec). -/
def players2pt : List Player :=
  [playerAt "PG" "PG" 0 25, playerAt "SG" "SG" (-15) 25,
   playerAt "C" "C" 0 10]

/-- A movement oracle that targets each role's current fixture position, so
the moved distance is 0 for PG and C. -/
def mv0 : MoveRand :=
  { pg_x := 0, pg_y := 30, sg_cos := 0, sg_sin := 0, c_x := 0, c_y := 10,
    speed := 1 }

/-- An oracle below the 0.7 shooting threshold: no shot attempt. -/
def noShotRand : TickRand :=
  { shooting_chance := 1/2, shooter_idx := 0, shot_roll := 0,
    moves := fun _ => mv0 }

/-- An oracle above the 0.7 shooting threshold choosing player 0, with a
roll of 0 (forced make, since the probability floor is 0.2). -/
def shootRand : TickRand :=
  { shooting_chance := 1, shooter_idx := 0, shot_roll := 0,
    moves := fun _ => mv0 }

/-- A degenerate square-root interpretation: every distance evaluates to 0,
so no player moves (the `distance > 0` guard fails). -/
def sqrtZero : ℚ → ℚ := fun _ => 0

/-- A square-root interpretation exact at the two-point shooter's squared
distance `(39/2)^2 = 1521/4` and 0 elsewhere. -/
def sqrt2pt : ℚ → ℚ := fun q => if q = 1521/4 then 39/2 else 0

/-- A square-root interpretation exact at the three-point shooter's squared
distance `(49/2)^2 = 2401/4` and 0 elsewhere. -/
def sqrt3pt : ℚ → ℚ := fun q => if q = 2401/4 then 49/2 else 0

/-- Expected output state of one no-shot tick from the seeded state. -/
def gsOutNoShot : GameState :=
  { game_id := "g1", shot_clock := 108/5, game_clock := 696, quarter := 1,
    score_home := 0, score_away := 0, last_action := "Players moving..." }

/-- Expected output state of the forced-make two-point tick. -/
def gsOut2pt : GameState :=
  { game_id := "g1", shot_clock := 108/5, game_clock := 696, quarter := 1,
    score_home := 2, score_away := 0,
    last_action := "Player PG made a 2-point shot!" }

/-- Expected output state of the forced-make three-point tick. -/
def gsOut3pt : GameState :=
  { game_id := "g1", shot_clock := 108/5, game_clock := 696, quarter := 1,
    score_home := 3, score_away := 0,
    last_action := "Player PG made a 3-point shot!" }

/-- Expected output roster of the forced-make two-point tick: the shooter's
flags set, the others unmoved. -/
def ps2ptOut : List Player :=
  [{ playerAt "PG" "PG" 0 25 with is_shooting := true, shot_made := true },
   playerAt "SG" "SG" (-15) 25, playerAt "C" "C" 0 10]

/-- Expected output roster of the forced-make three-point tick. -/
def ps3ptOut : List Player :=
  [{ playerAt "PG" "PG" 0 30 with is_shooting := true, shot_made := true },
   playerAt "SG" "SG" (-15) 25, playerAt "C" "C" 0 10]

end NBA

/-! ## Helper lemmas -/

namespace Hub

lemma foldl_erase_cons_of_forall_ne (a : WS) :
    ∀ (ds l : List WS), (∀ d ∈ ds, d ≠ a) →
      ds.foldl List.erase (a :: l) = a :: ds.foldl List.erase l := by
  intro ds
  induction ds with
  | nil => intro l _; rfl
  | cons d ds ih =>
    intro l h
    have hd : d ≠ a := h d (by simp)
    simp only [List.foldl_cons]
    rw [List.erase_cons_tail (by simpa using fun he => hd he.symm)]
    exact ih _ (fun x hx => h x (by simp [hx]))

lemma foldl_erase_filter (sendOk : WS → Bool) :
    ∀ (l : List WS), l.Nodup →
      (l.filter (fun ws => !(sendOk ws))).foldl List.erase l
        = l.filter (fun ws => sendOk ws) := by
  intro l
  induction l with
  | nil => intro _; rfl
  | cons a t ih =>
    intro hnd
    rcases List.nodup_cons.mp hnd with ⟨hat, hndt⟩
    by_cases hsa : sendOk a
    · have h1 : (a :: t).filter (fun ws => !(sendOk ws))
          = t.filter (fun ws => !(sendOk ws)) := by
        simp [hsa]
      have h2 : (a :: t).filter (fun ws => sendOk ws)
          = a :: t.filter (fun ws => sendOk ws) := by
        simp [hsa]
      rw [h1, h2, foldl_erase_cons_of_forall_ne, ih hndt]
      intro d hd
      have : d ∈ t := List.mem_of_mem_filter hd
      exact fun hda => hat (hda ▸ this)
    · have h1 : (a :: t).filter (fun ws => !(sendOk ws))
          = a :: t.filter (fun ws => !(sendOk ws)) := by
        simp [hsa]
      have h2 : (a :: t).filter (fun ws => sendOk ws)
          = t.filter (fun ws => sendOk ws) := by
        simp [hsa]
      rw [h1, h2]
      simp only [List.foldl_cons, List.erase_cons_head]
      exact ih hndt

end Hub

/-! ## Claim theorems -/

/-- C7: the make-probability function `shot_probability(d) = max(0.2, 1 - d/50)`
(src/server.py line 325) is monotonically decreasing in the distance and, for
every non-negative distance, bounded below by the floor 0.2 and above by 1. -/
theorem shot_probability_antitone_bounded (d1 d2 : ℚ) (hle : d1 ≤ d2)
    (h0 : 0 ≤ d1) :
    NBA.shot_probability d2 ≤ NBA.shot_probability d1 ∧
    1/5 ≤ NBA.shot_probability d1 ∧ NBA.shot_probability d1 ≤ 1 := by
  unfold NBA.shot_probability
  refine ⟨max_le_max le_rfl (by linarith), le_max_left _ _, ?_⟩
  apply max_le (by norm_num)
  have : 0 ≤ d1 / 50 := by positivity
  linarith

/-- C7 witness: concrete instance at distances 5 ≤ 30. -/
theorem shot_probability_antitone_bounded_witness :
    NBA.shot_probability 30 ≤ NBA.shot_probability 5 ∧
    1/5 ≤ NBA.shot_probability 5 ∧ NBA.shot_probability 5 ≤ 1 :=
  shot_probability_antitone_bounded 5 30 (by norm_num) (by norm_num)

/-- C8: `fetch_game_data` (src/NBA_data_pipeline.py lines 19-35) returns a map
holding every source key exactly once and no other keys, each key's value
depending only on that source's own response (so one source's failure never
aborts its siblings), and `fetch_endpoint` (lines 37-50) turns a transport
exception or a non-200 status into the data value `none` for that key alone,
never a raised fault. -/
theorem fetch_game_data_result_guarantee {α : Type}
    (responses : String → Option (ℕ × α)) (gid : String) :
    Pipeline.fetch_game_data responses gid =
      [("play_by_play",
          Pipeline.fetch_endpoint (responses ("/playbyplayv2?GameID=" ++ gid))),
       ("shot_chart",
          Pipeline.fetch_endpoint (responses ("/shotchartdetail?GameID=" ++ gid))),
       ("player_tracking",
          Pipeline.fetch_endpoint
            (responses ("/boxscoreplayertrackv2?GameID=" ++ gid)))] ∧
    (Pipeline.fetch_game_data responses gid).map Prod.fst =
      ["play_by_play", "shot_chart", "player_tracking"] ∧
    Pipeline.fetch_endpoint (none : Option (ℕ × α)) = none ∧
    (∀ (st : ℕ) (body : α), st ≠ 200 →
      Pipeline.fetch_endpoint (some (st, body)) = none) ∧
    (∀ body : α, Pipeline.fetch_endpoint (some (200, body)) = some body) := by
  refine ⟨rfl, rfl, rfl, ?_, fun body => rfl⟩
  intro st body hst
  simp [Pipeline.fetch_endpoint, hst]

/-- C8 witness: a rejected status and a transport failure both collapse to the
typed failure value `none`, by direct application at concrete inputs. -/
theorem fetch_game_data_result_guarantee_witness :
    Pipeline.fetch_endpoint (some ((404 : ℕ), (7 : ℕ))) = none ∧
    Pipeline.fetch_endpoint (none : Option (ℕ × ℕ)) = none :=
  ⟨(fetch_game_data_result_guarantee (fun _ => none) "g1").2.2.2.1 404 7
      (by norm_num),
   (fetch_game_data_result_guarantee (fun _ => none) "g1").2.2.1⟩

/-- C9 (code defect): one loop iteration of `StreamProcessor.process_stream`
(src/NBA_data_pipeline.py lines 86-106) with a failing tick body.  The claim
(and the source comment at line 106, back off on error) expects the handler
to sleep the 5-unit back-off and re-enter the running state, but the handler
first evaluates `self.logger` (line 105), an attribute `StreamProcessor`
never assigns, so the handler itself raises `AttributeError` and the loop
crashes; had the instance owned a `logger` attribute, the same step would
have returned the 5-unit back-off. -/
theorem process_stream_backoff_crashes :
    Pipeline.process_stream_step Pipeline.streamProcessorAttrs
        (Except.error Pipeline.PyErr.genericError) (0 : ℕ) =
      Except.error Pipeline.PyErr.attributeError ∧
    Pipeline.process_stream_step ["logger"]
        (Except.error Pipeline.PyErr.genericError) (0 : ℕ) =
      Except.ok ((0 : ℕ), 5) ∧
    Pipeline.process_stream_step Pipeline.streamProcessorAttrs
        (Except.ok (1 : ℕ)) (0 : ℕ) = Except.ok ((1 : ℕ), 1) := by
  exact ⟨rfl, rfl, rfl⟩

/-- C1 counterexample: merging an all-failed aggregation result does change
the stored state — `dict.update` overwrites the `play_by_play` portion
(previously a successful payload `some (some 0)`) with the failure marker
`some none`. -/
theorem merge_all_failed_not_identity :
    Pipeline.update_game_state
        (fun k => if k = "play_by_play" then some (some (0 : ℕ)) else none)
        (Pipeline.fetch_game_data (fun _ => (none : Option (ℕ × ℕ))) "g1")
        "play_by_play"
      ≠ (fun k => if k = "play_by_play" then some (some (0 : ℕ)) else none)
          "play_by_play" := by
  decide

/-- C1 amended: the merge step (`_update_game_state`, src/NBA_data_pipeline.py
lines 108-116) is last-value-wins, not last-successful-value-wins: merging an
aggregation result in which every source failed overwrites each source key's
portion of the stored state with the failure marker (`None`), and leaves only
the portions outside the fetched source keys unchanged. -/
theorem merge_all_failed_overwrites_with_marker {α : Type}
    (cur : String → Option (Option α)) (responses : String → Option (ℕ × α))
    (gid k : String)
    (hfail : ∀ ep, Pipeline.fetch_endpoint (responses ep) = (none : Option α)) :
    Pipeline.update_game_state cur (Pipeline.fetch_game_data responses gid) k =
      if k = "play_by_play" ∨ k = "shot_chart" ∨ k = "player_tracking"
      then some none else cur k := by
  unfold Pipeline.update_game_state Pipeline.fetch_game_data
    Pipeline.pipeline_endpoints
  simp only [List.map_cons, List.map_nil, hfail, List.lookup]
  by_cases h1 : k = "play_by_play"
  · simp [h1]
  · by_cases h2 : k = "shot_chart"
    · simp [h1, h2]
    · by_cases h3 : k = "player_tracking"
      · simp [h1, h2, h3]
      · simp [h1, h2, h3, beq_false_of_ne h1, beq_false_of_ne h2,
          beq_false_of_ne h3]

/-- C1 witness: with every source failed, the `shot_chart` portion of a
previously all-successful state becomes the failure marker. -/
theorem merge_all_failed_overwrites_with_marker_witness :
    Pipeline.update_game_state (fun _ => some (some (3 : ℕ)))
        (Pipeline.fetch_game_data (fun _ => (none : Option (ℕ × ℕ))) "g1")
        "shot_chart"
      = some none := by
  have h := merge_all_failed_overwrites_with_marker
    (fun _ => some (some (3 : ℕ))) (fun _ => (none : Option (ℕ × ℕ))) "g1"
    "shot_chart" (fun ep => rfl)
  simpa using h

/-- C2: `broadcast_update` (src/server.py lines 92-106) attempts delivery to
every currently-subscribed handle and succeeds exactly on the non-failing
ones, removes exactly the failing handles from the (duplicate-free) registry
while keeping all others, never raises (it is a total function), and a
subsequent publish delivers only to the remaining handles. -/
theorem broadcast_update_failure_isolation (sendOk : Hub.WS → Bool)
    (conns : List Hub.WS) (hnd : conns.Nodup) :
    (Hub.broadcast_update sendOk conns).1
        = conns.filter (fun ws => sendOk ws) ∧
    (Hub.broadcast_update sendOk conns).2
        = conns.filter (fun ws => sendOk ws) ∧
    (∀ sendOk2 : Hub.WS → Bool,
      (Hub.broadcast_update sendOk2 (Hub.broadcast_update sendOk conns).2).1
        = (conns.filter (fun ws => sendOk ws)).filter
            (fun ws => sendOk2 ws)) := by
  have hreg : (Hub.broadcast_update sendOk conns).2
      = conns.filter (fun ws => sendOk ws) :=
    Hub.foldl_erase_filter sendOk conns hnd
  refine ⟨rfl, hreg, ?_⟩
  intro sendOk2
  rw [hreg]
  rfl

/-- C2 witness: three subscribers where delivery to handle 1 fails — both
survivors are still delivered to, exactly handle 1 is evicted, and the next
publish involves only the remaining two. -/
theorem broadcast_update_failure_isolation_witness :
    (Hub.broadcast_update (fun ws => decide (ws ≠ 1)) [0, 1, 2]).1 = [0, 2] ∧
    (Hub.broadcast_update (fun ws => decide (ws ≠ 1)) [0, 1, 2]).2 = [0, 2] ∧
    (Hub.broadcast_update (fun _ => true)
        (Hub.broadcast_update (fun ws => decide (ws ≠ 1)) [0, 1, 2]).2).1
      = [0, 2] := by
  have h := broadcast_update_failure_isolation (fun ws => decide (ws ≠ 1))
    [0, 1, 2] (by decide)
  exact ⟨h.1.trans (by decide), h.2.1.trans (by decide),
    (h.2.2 (fun _ => true)).trans (by decide)⟩

namespace NBA

lemma movePlayer_flags (sqrtFn : ℚ → ℚ) (m : MoveRand) (p : Player)
    (tgt : ℚ × ℚ) :
    (movePlayer sqrtFn m p tgt).is_shooting = p.is_shooting ∧
    (movePlayer sqrtFn m p tgt).shot_made = p.shot_made := by
  unfold movePlayer
  by_cases h : sqrtFn ((tgt.1 - p.x) ^ 2 + (tgt.2 - p.y) ^ 2) > 0 <;>
    simp [h]

lemma movePlayer_inBounds (sqrtFn : ℚ → ℚ) (m : MoveRand) (p : Player)
    (tgt : ℚ × ℚ) : inBounds (movePlayer sqrtFn m p tgt) := by
  unfold movePlayer inBounds
  refine ⟨le_max_left _ _, max_le (by norm_num) (min_le_left _ _),
    le_max_left _ _, max_le (by norm_num) (min_le_left _ _)⟩

lemma consOk_ok {p : Player} {e : Except TickErr (List Player)}
    {out : List Player} (h : consOk p e = Except.ok out) :
    ∃ rest, e = Except.ok rest ∧ out = p :: rest := by
  cases e with
  | error err => simp [consOk] at h
  | ok rest =>
    refine ⟨rest, rfl, ?_⟩
    simpa [consOk] using h.symm

lemma moveLoop_forall₂ (sqrtFn : ℚ → ℚ) (moves : ℕ → MoveRand) :
    ∀ (ps : List Player) (j : ℕ) (last : Option (ℚ × ℚ))
      (out : List Player),
      moveLoop sqrtFn moves j last ps = Except.ok out →
      List.Forall₂ stepRel ps out := by
  intro ps
  induction ps with
  | nil =>
    intro j last out h
    simp only [moveLoop] at h
    injection h with h2
    subst h2
    exact List.Forall₂.nil
  | cons p ps ih =>
    intro j last out h
    simp only [moveLoop] at h
    by_cases hsh : p.is_shooting
    · rw [if_pos hsh] at h
      obtain ⟨rest, hrec, rfl⟩ := consOk_ok h
      exact List.Forall₂.cons ⟨rfl, rfl, Or.inl rfl⟩ (ih _ _ _ hrec)
    · rw [if_neg hsh] at h
      cases htgt : roleTarget (moves j) p.role last with
      | none => rw [htgt] at h; simp at h
      | some t =>
        rw [htgt] at h
        obtain ⟨rest, hrec, rfl⟩ := consOk_ok h
        exact List.Forall₂.cons
          ⟨(movePlayer_flags sqrtFn (moves j) p t).1,
           (movePlayer_flags sqrtFn (moves j) p t).2,
           Or.inr (movePlayer_inBounds sqrtFn (moves j) p t)⟩
          (ih _ _ _ hrec)

lemma forall₂_shooterCount {ps out : List Player}
    (h : List.Forall₂ stepRel ps out) : shooterCount out = shooterCount ps := by
  induction h with
  | nil => rfl
  | cons hr _ ih =>
    rcases hr with ⟨h1, _, _⟩
    simp [shooterCount, List.countP_cons, h1] at ih ⊢
    omega

lemma forall₂_flagsConsistent {ps out : List Player}
    (h : List.Forall₂ stepRel ps out) :
    flagsConsistent ps → flagsConsistent out := by
  induction h with
  | nil => intro _ p hp; simp at hp
  | cons hr _ ih =>
    intro hc q hq hqs
    rcases List.mem_cons.mp hq with hq1 | hq2
    · subst hq1
      rcases hr with ⟨h1, h2, _⟩
      rw [h2]
      refine hc _ (List.mem_cons_self _ _) ?_
      rw [← h1]
      exact hqs
    · exact ih (fun p hp hps => hc p (List.mem_cons_of_mem _ hp) hps) q hq2 hqs

lemma forall₂_bounds {ps out : List Player}
    (h : List.Forall₂ stepRel ps out) (hb : ∀ p ∈ ps, inBounds p) :
    ∀ q ∈ out, inBounds q := by
  induction h with
  | nil => intro q hq; simp at hq
  | cons hr _ ih =>
    intro q hq
    rcases List.mem_cons.mp hq with hq1 | hq2
    · subst hq1
      rcases hr.2.2 with heq | hbq
      · rw [heq]
        exact hb _ (List.mem_cons_self _ _)
      · exact hbq
    · exact ih (fun p hp => hb p (List.mem_cons_of_mem _ hp)) q hq2

end NBA

namespace NBA

lemma shooterCount_cleared (players : List Player) :
    shooterCount (players.map clearFlags) = 0 := by
  rw [shooterCount, List.countP_eq_zero]
  intro p hp
  rcases List.mem_map.mp hp with ⟨q, _, rfl⟩
  simp [clearFlags]

lemma flagsConsistent_cleared (players : List Player) :
    flagsConsistent (players.map clearFlags) := by
  intro p hp _
  rcases List.mem_map.mp hp with ⟨q, _, rfl⟩
  rfl

lemma shooterCount_set_le_one :
    ∀ (l : List Player) (i : ℕ) (a : Player),
      shooterCount l = 0 → shooterCount (l.set i a) ≤ 1 := by
  intro l
  induction l with
  | nil =>
    intro i a _
    simp [shooterCount]
  | cons b t ih =>
    intro i a h0
    rw [shooterCount, List.countP_cons] at h0
    have hb : (if b.is_shooting = true then 1 else 0) = 0 ∧
        t.countP (fun p => p.is_shooting) = 0 := by
      constructor <;> omega
    cases i with
    | zero =>
      rw [List.set_cons_zero, shooterCount, List.countP_cons, hb.2]
      split <;> norm_num
    | succ n =>
      rw [List.set_cons_succ, shooterCount, List.countP_cons, hb.1]
      have hrec := ih n a hb.2
      rw [shooterCount] at hrec
      omega

lemma flagsConsistent_set (l : List Player) (i : ℕ) (a : Player)
    (hc : flagsConsistent l) (ha : a.is_shooting = true) :
    flagsConsistent (l.set i a) := by
  intro p hp hps
  rcases List.mem_or_eq_of_mem_set hp with hmem | rfl
  · exact hc p hmem hps
  · rw [ha] at hps
    cases hps

lemma simulate_ok_elim {sqrtFn : ℚ → ℚ} {r : TickRand} {gs : GameState}
    {players : List Player} {gs' : GameState} {ps' : List Player}
    (h : simulate_game_update sqrtFn r gs players = Except.ok (gs', ps')) :
    ∃ ps2, shotPhase sqrtFn r gs players = Except.ok (gs', ps2) ∧
      moveLoop sqrtFn r.moves 0 none ps2 = Except.ok ps' := by
  unfold simulate_game_update at h
  split at h
  · exact absurd h (by simp)
  · rename_i gs2 ps2 heq
    split at h
    · exact absurd h (by simp)
    · rename_i ps3 hml
      injection h with h2
      rw [Prod.mk.injEq] at h2
      obtain ⟨h3, h4⟩ := h2
      subst h3
      subst h4
      exact ⟨ps2, heq, hml⟩

lemma shotPhase_ok_elim {sqrtFn : ℚ → ℚ} {r : TickRand} {gs : GameState}
    {players : List Player} {gs2 : GameState} {ps2 : List Player}
    (h : shotPhase sqrtFn r gs players = Except.ok (gs2, ps2)) :
    (¬ (r.shooting_chance > 7/10) ∧
      gs2 = { clockStep gs with last_action := "Players moving..." } ∧
      ps2 = players.map clearFlags) ∨
    (r.shooting_chance > 7/10 ∧ ∃ shooter,
      (players.map clearFlags).get?
          (r.shooter_idx % (players.map clearFlags).length) = some shooter ∧
      gs2 = shotOutcomeGS sqrtFn r gs shooter ∧
      ps2 = (players.map clearFlags).set
          (r.shooter_idx % (players.map clearFlags).length)
          { shooter with
            is_shooting := true
            shot_made := decide (r.shot_roll <
              shot_probability (sqrtFn (distSqToBasket shooter))) }) := by
  unfold shotPhase at h
  split at h
  · rename_i hc
    split at h
    · exact absurd h (by simp)
    · rename_i shooter hget
      injection h with h2
      rw [Prod.mk.injEq] at h2
      right
      exact ⟨hc, shooter, hget, h2.1.symm, h2.2.symm⟩
  · rename_i hc
    injection h with h2
    rw [Prod.mk.injEq] at h2
    left
    exact ⟨hc, h2.1.symm, h2.2.symm⟩

lemma shotOutcomeGS_fields (sqrtFn : ℚ → ℚ) (r : TickRand) (gs : GameState)
    (shooter : Player) :
    (shotOutcomeGS sqrtFn r gs shooter).shot_clock =
        max 0 (gs.shot_clock - 12/5) ∧
    (shotOutcomeGS sqrtFn r gs shooter).game_clock =
        max 0 (gs.game_clock - 24) ∧
    (shotOutcomeGS sqrtFn r gs shooter).score_home = gs.score_home +
      (if r.shot_roll < shot_probability (sqrtFn (distSqToBasket shooter))
       then (if sqrtFn (distSqToBasket shooter) > 95/4 then 3 else 2)
       else 0) := by
  unfold shotOutcomeGS clockStep
  split <;> simp

end NBA

namespace NBA

lemma roleTarget_unknown (m : MoveRand) (role : String)
    (last : Option (ℚ × ℚ)) (h : role ∉ (["PG", "SG", "C"] : List String)) :
    roleTarget m role last = last := by
  simp only [List.mem_cons, List.mem_singleton, not_or] at h
  obtain ⟨h1, h2, h3⟩ := h
  simp [roleTarget, h1, h2, h3]

lemma roleTarget_known (m : MoveRand) (role : String)
    (last : Option (ℚ × ℚ)) (h : role ∈ (["PG", "SG", "C"] : List String)) :
    ∃ t, roleTarget m role last = some t := by
  simp only [List.mem_cons, List.not_mem_nil, or_false] at h
  rcases h with rfl | rfl | rfl
  · exact ⟨(m.pg_x, m.pg_y), by simp [roleTarget]⟩
  · exact ⟨(22 * m.sg_cos, 22 * m.sg_sin + 15), by simp [roleTarget]⟩
  · exact ⟨(m.c_x, m.c_y), by simp [roleTarget]⟩

lemma moveLoop_total (sqrtFn : ℚ → ℚ) (moves : ℕ → MoveRand) :
    ∀ (ps : List Player) (j : ℕ) (last : Option (ℚ × ℚ)),
      (∀ p ∈ ps, p.is_shooting = false →
        p.role ∈ (["PG", "SG", "C"] : List String)) →
      ∃ out, moveLoop sqrtFn moves j last ps = Except.ok out := by
  intro ps
  induction ps with
  | nil => exact fun j last _ => ⟨[], rfl⟩
  | cons p ps ih =>
    intro j last hroles
    by_cases hsh : p.is_shooting
    · obtain ⟨out, hout⟩ := ih (j + 1) last
        (fun q hq => hroles q (List.mem_cons_of_mem _ hq))
      exact ⟨p :: out, by simp [moveLoop, hsh, hout, consOk]⟩
    · obtain ⟨t, ht⟩ := roleTarget_known (moves j) p.role last
        (hroles p (List.mem_cons_self _ _) (by simpa using hsh))
      obtain ⟨out, hout⟩ := ih (j + 1) (some t)
        (fun q hq => hroles q (List.mem_cons_of_mem _ hq))
      exact ⟨movePlayer sqrtFn (moves j) p t :: out,
        by simp [moveLoop, hsh, ht, hout, consOk]⟩

lemma moveLoop_first_unknown (sqrtFn : ℚ → ℚ) (moves : ℕ → MoveRand) :
    ∀ (pre : List Player) (p : Player) (ps : List Player) (j : ℕ),
      (∀ q ∈ pre, q.is_shooting = true) → p.is_shooting = false →
      p.role ∉ (["PG", "SG", "C"] : List String) →
      moveLoop sqrtFn moves j none (pre ++ p :: ps) =
        Except.error TickErr.unboundTarget := by
  intro pre
  induction pre with
  | nil =>
    intro p ps j _ hsh hrole
    simp [moveLoop, hsh, roleTarget_unknown (moves j) p.role none hrole]
  | cons a pre ih =>
    intro p ps j hpre hsh hrole
    have ha : a.is_shooting = true := hpre a (List.mem_cons_self _ _)
    have hrec := ih p ps (j + 1)
      (fun q hq => hpre q (List.mem_cons_of_mem _ hq)) hsh hrole
    simp [moveLoop, ha, hrec, consOk]

lemma moveLoop_reuse_target (sqrtFn : ℚ → ℚ) (moves : ℕ → MoveRand)
    (p : Player) (ps : List Player) (j : ℕ) (t : ℚ × ℚ)
    (hsh : p.is_shooting = false)
    (hrole : p.role ∉ (["PG", "SG", "C"] : List String)) :
    moveLoop sqrtFn moves j (some t) (p :: ps) =
      consOk (movePlayer sqrtFn (moves j) p t)
        (moveLoop sqrtFn moves (j + 1) (some t) ps) := by
  simp [moveLoop, hsh, roleTarget_unknown (moves j) p.role (some t) hrole]

end NBA

namespace NBA

lemma shotPhase_total (sqrtFn : ℚ → ℚ) (r : TickRand) (gs : GameState)
    (players : List Player)
    (hne : r.shooting_chance > 7/10 → players ≠ []) :
    ∃ gs2 ps2, shotPhase sqrtFn r gs players = Except.ok (gs2, ps2) := by
  unfold shotPhase
  by_cases hc : r.shooting_chance > 7/10
  · rw [if_pos hc]
    have hlen : 0 < (players.map clearFlags).length := by
      rw [List.length_map]
      exact List.length_pos.mpr (hne hc)
    have hlt : r.shooter_idx % (players.map clearFlags).length <
        (players.map clearFlags).length := Nat.mod_lt _ hlen
    cases hget : (players.map clearFlags).get?
        (r.shooter_idx % (players.map clearFlags).length) with
    | none =>
      exfalso
      have := List.get?_eq_none.mp hget
      omega
    | some shooter => exact ⟨_, _, rfl⟩
  · rw [if_neg hc]
    exact ⟨_, _, rfl⟩

lemma ps2_roles {sqrtFn : ℚ → ℚ} {r : TickRand} {gs : GameState}
    {players : List Player} {gs2 : GameState} {ps2 : List Player}
    (h : shotPhase sqrtFn r gs players = Except.ok (gs2, ps2))
    (hroles : ∀ p ∈ players, p.role ∈ (["PG", "SG", "C"] : List String)) :
    ∀ p ∈ ps2, p.role ∈ (["PG", "SG", "C"] : List String) := by
  rcases shotPhase_ok_elim h with ⟨_, _, hps⟩ | ⟨_, shooter, hget, _, hps⟩
  · subst hps
    intro p hp
    rcases List.mem_map.mp hp with ⟨q, hq, rfl⟩
    exact hroles q hq
  · subst hps
    intro p hp
    rcases List.mem_or_eq_of_mem_set hp with hmem | rfl
    · rcases List.mem_map.mp hmem with ⟨q, hq, rfl⟩
      exact hroles q hq
    · have hs : shooter ∈ players.map clearFlags := List.get?_mem hget
      rcases List.mem_map.mp hs with ⟨q, hq, rfl⟩
      exact hroles q hq

end NBA

/-- C3: in the player list output by every successful simulation tick, at
most one player has `is_shooting = true`, and every player with
`is_shooting = false` also has `shot_made = false` (the tick first clears
both flags on all players, then sets them on at most one chosen shooter;
the movement loop never touches the flags). -/
theorem simulate_at_most_one_shooter (sqrtFn : ℚ → ℚ) (r : NBA.TickRand)
    (gs : NBA.GameState) (players : List NBA.Player) (gs' : NBA.GameState)
    (ps' : List NBA.Player)
    (h : NBA.simulate_game_update sqrtFn r gs players = Except.ok (gs', ps')) :
    NBA.shooterCount ps' ≤ 1 ∧ NBA.flagsConsistent ps' := by
  obtain ⟨ps2, hsp, hml⟩ := NBA.simulate_ok_elim h
  have hf2 := NBA.moveLoop_forall₂ sqrtFn r.moves ps2 0 none ps' hml
  have hcount := NBA.forall₂_shooterCount hf2
  have hflags := NBA.forall₂_flagsConsistent hf2
  rcases NBA.shotPhase_ok_elim hsp with ⟨_, _, hps2⟩ |
    ⟨_, shooter, hget, _, hps2⟩
  · subst hps2
    refine ⟨?_, hflags (NBA.flagsConsistent_cleared players)⟩
    rw [hcount, NBA.shooterCount_cleared]
    norm_num
  · subst hps2
    constructor
    · rw [hcount]
      exact NBA.shooterCount_set_le_one _ _ _
        (NBA.shooterCount_cleared players)
    · exact hflags (NBA.flagsConsistent_set _ _ _
        (NBA.flagsConsistent_cleared players) rfl)

/-- C3 witness: one concrete no-shot tick from the seeded roster. -/
theorem simulate_at_most_one_shooter_witness :
    NBA.shooterCount NBA.testPlayers ≤ 1 ∧
    NBA.flagsConsistent NBA.testPlayers := by
  refine simulate_at_most_one_shooter NBA.sqrtZero NBA.noShotRand NBA.testGS
    NBA.testPlayers NBA.gsOutNoShot NBA.testPlayers ?_
  simp [NBA.simulate_game_update, NBA.shotPhase, NBA.shotOutcomeGS,
    NBA.clockStep, NBA.clearFlags, NBA.testGS, NBA.testPlayers, NBA.playerAt,
    NBA.mv0, NBA.noShotRand, NBA.sqrtZero, NBA.gsOutNoShot,
    NBA.shot_probability, NBA.distSqToBasket, NBA.moveLoop, NBA.movePlayer,
    NBA.roleTarget, NBA.consOk]
  norm_num [max_def, min_def]
  simp [NBA.moveLoop, NBA.movePlayer, NBA.roleTarget, NBA.consOk,
    NBA.clearFlags, NBA.mv0, NBA.sqrtZero]
  norm_num [max_def, min_def]

/-- C4: if every player of the input snapshot starts inside the court
bounds `x ∈ [-23, 23]`, `y ∈ [2, 45]`, then every player position produced
by a successful simulation tick also satisfies those bounds — moved players
are clamped, and the (unmoved) shooter was in bounds already. -/
theorem simulate_positions_in_bounds (sqrtFn : ℚ → ℚ) (r : NBA.TickRand)
    (gs : NBA.GameState) (players : List NBA.Player) (gs' : NBA.GameState)
    (ps' : List NBA.Player)
    (hb : ∀ p ∈ players, NBA.inBounds p)
    (h : NBA.simulate_game_update sqrtFn r gs players = Except.ok (gs', ps')) :
    ∀ p ∈ ps', NBA.inBounds p := by
  obtain ⟨ps2, hsp, hml⟩ := NBA.simulate_ok_elim h
  have hf2 := NBA.moveLoop_forall₂ sqrtFn r.moves ps2 0 none ps' hml
  refine NBA.forall₂_bounds hf2 ?_
  rcases NBA.shotPhase_ok_elim hsp with ⟨_, _, hps2⟩ |
    ⟨_, shooter, hget, _, hps2⟩
  · subst hps2
    intro q hq
    rcases List.mem_map.mp hq with ⟨a, ha, rfl⟩
    exact hb a ha
  · subst hps2
    intro q hq
    rcases List.mem_or_eq_of_mem_set hq with hmem | rfl
    · rcases List.mem_map.mp hmem with ⟨a, ha, rfl⟩
      exact hb a ha
    · have hs : shooter ∈ players.map NBA.clearFlags := List.get?_mem hget
      rcases List.mem_map.mp hs with ⟨a, ha, rfl⟩
      exact hb a ha

/-- C4 witness: the seeded roster starts in bounds and one concrete tick
keeps it in bounds. -/
theorem simulate_positions_in_bounds_witness :
    NBA.inBounds (NBA.playerAt "PG" "PG" 0 30) ∧
    NBA.inBounds (NBA.playerAt "SG" "SG" (-15) 25) ∧
    NBA.inBounds (NBA.playerAt "C" "C" 0 10) := by
  have h : ∀ p ∈ NBA.testPlayers, NBA.inBounds p := by
    refine simulate_positions_in_bounds NBA.sqrtZero NBA.noShotRand NBA.testGS
      NBA.testPlayers NBA.gsOutNoShot NBA.testPlayers (by decide) ?_
    simp [NBA.simulate_game_update, NBA.shotPhase, NBA.shotOutcomeGS,
      NBA.clockStep, NBA.clearFlags, NBA.testGS, NBA.testPlayers, NBA.playerAt,
      NBA.mv0, NBA.noShotRand, NBA.sqrtZero, NBA.gsOutNoShot,
      NBA.shot_probability, NBA.distSqToBasket, NBA.moveLoop, NBA.movePlayer,
      NBA.roleTarget, NBA.consOk]
    norm_num [max_def, min_def]
    simp [NBA.moveLoop, NBA.movePlayer, NBA.roleTarget, NBA.consOk,
      NBA.clearFlags, NBA.mv0, NBA.sqrtZero]
    norm_num [max_def, min_def]
  exact ⟨h _ (by simp [NBA.testPlayers]), h _ (by simp [NBA.testPlayers]),
    h _ (by simp [NBA.testPlayers])⟩

/-- C5: every successful simulation tick maps the clocks by
`shotClock' = max(0, shotClock - 2.4)` and
`gameClock' = max(0, gameClock - 24.0)` — for any random oracle, so in
particular independently of any shot attempt — and for non-negative input
clocks the output clocks satisfy `0 ≤ clock' ≤ clock`, never negative. -/
theorem simulate_clock_decrement (sqrtFn : ℚ → ℚ) (r : NBA.TickRand)
    (gs : NBA.GameState) (players : List NBA.Player) (gs' : NBA.GameState)
    (ps' : List NBA.Player)
    (hsc : 0 ≤ gs.shot_clock) (hgc : 0 ≤ gs.game_clock)
    (h : NBA.simulate_game_update sqrtFn r gs players = Except.ok (gs', ps')) :
    gs'.shot_clock = max 0 (gs.shot_clock - 12/5) ∧
    gs'.game_clock = max 0 (gs.game_clock - 24) ∧
    0 ≤ gs'.shot_clock ∧ gs'.shot_clock ≤ gs.shot_clock ∧
    0 ≤ gs'.game_clock ∧ gs'.game_clock ≤ gs.game_clock := by
  obtain ⟨ps2, hsp, _⟩ := NBA.simulate_ok_elim h
  have hclocks : gs'.shot_clock = max 0 (gs.shot_clock - 12/5) ∧
      gs'.game_clock = max 0 (gs.game_clock - 24) := by
    rcases NBA.shotPhase_ok_elim hsp with ⟨_, hgs, _⟩ |
      ⟨_, shooter, _, hgs, _⟩
    · subst hgs
      exact ⟨rfl, rfl⟩
    · subst hgs
      exact ⟨(NBA.shotOutcomeGS_fields sqrtFn r gs shooter).1,
        (NBA.shotOutcomeGS_fields sqrtFn r gs shooter).2.1⟩
  refine ⟨hclocks.1, hclocks.2, ?_, ?_, ?_, ?_⟩
  · rw [hclocks.1]
    exact le_max_left _ _
  · rw [hclocks.1]
    exact max_le hsc (by linarith)
  · rw [hclocks.2]
    exact le_max_left _ _
  · rw [hclocks.2]
    exact max_le hgc (by linarith)

/-- C5 witness: the spec scenario — one tick from shot clock 24 and game
clock 720 yields 21.6 (= 108/5) and 696, with both clocks non-negative and
non-increasing. -/
theorem simulate_clock_decrement_witness :
    NBA.gsOutNoShot.shot_clock = 108/5 ∧
    NBA.gsOutNoShot.game_clock = 696 ∧
    0 ≤ NBA.gsOutNoShot.shot_clock ∧
    NBA.gsOutNoShot.shot_clock ≤ NBA.testGS.shot_clock := by
  have h := simulate_clock_decrement NBA.sqrtZero NBA.noShotRand NBA.testGS
    NBA.testPlayers NBA.gsOutNoShot NBA.testPlayers (by norm_num [NBA.testGS])
    (by norm_num [NBA.testGS]) (by
      simp [NBA.simulate_game_update, NBA.shotPhase, NBA.shotOutcomeGS,
        NBA.clockStep, NBA.clearFlags, NBA.testGS, NBA.testPlayers,
        NBA.playerAt, NBA.mv0, NBA.noShotRand, NBA.sqrtZero, NBA.gsOutNoShot,
        NBA.shot_probability, NBA.distSqToBasket, NBA.moveLoop,
        NBA.movePlayer, NBA.roleTarget, NBA.consOk]
      norm_num [max_def, min_def]
      simp [NBA.moveLoop, NBA.movePlayer, NBA.roleTarget, NBA.consOk,
        NBA.clearFlags, NBA.mv0, NBA.sqrtZero]
      norm_num [max_def, min_def])
  refine ⟨h.1.trans (by norm_num [NBA.testGS, max_def]),
    h.2.1.trans (by norm_num [NBA.testGS, max_def]), h.2.2.1, h.2.2.2.1⟩

/-- C6: when a tick attempts a shot, the shot distance is the (true) square
root of `x^2 + (y - 5.5)^2`, the distance to the basket reference point
`(0, 5.5)`; the attempt is a three-pointer exactly when that distance
exceeds 23.75 (equivalently, squared distance exceeds `23.75^2`); and on a
made shot `score_home` increases by exactly 3 for a three-point attempt and
exactly 2 otherwise.  `sqrtFn` is pinned to the true square root at the
shooter's squared distance by the hypotheses `hs0`, `hs1`. -/
theorem simulate_shot_distance_scoring (sqrtFn : ℚ → ℚ) (r : NBA.TickRand)
    (gs : NBA.GameState) (players : List NBA.Player) (gs' : NBA.GameState)
    (ps' : List NBA.Player) (shooter : NBA.Player)
    (hatt : r.shooting_chance > 7/10)
    (hget : (players.map NBA.clearFlags).get?
        (r.shooter_idx % (players.map NBA.clearFlags).length) = some shooter)
    (hs0 : 0 ≤ sqrtFn (NBA.distSqToBasket shooter))
    (hs1 : sqrtFn (NBA.distSqToBasket shooter) ^ 2 =
        NBA.distSqToBasket shooter)
    (hmade : r.shot_roll <
        NBA.shot_probability (sqrtFn (NBA.distSqToBasket shooter)))
    (h : NBA.simulate_game_update sqrtFn r gs players = Except.ok (gs', ps')) :
    ((sqrtFn (NBA.distSqToBasket shooter) : ℝ) =
        Real.sqrt ((NBA.distSqToBasket shooter : ℚ) : ℝ)) ∧
    (sqrtFn (NBA.distSqToBasket shooter) > 95/4 ↔
        NBA.distSqToBasket shooter > (95/4) ^ 2) ∧
    gs'.score_home = gs.score_home +
      (if NBA.distSqToBasket shooter > (95/4) ^ 2 then 3 else 2) := by
  obtain ⟨ps2, hsp, _⟩ := NBA.simulate_ok_elim h
  have hiff : sqrtFn (NBA.distSqToBasket shooter) > 95/4 ↔
      NBA.distSqToBasket shooter > (95/4) ^ 2 := by
    constructor
    · intro hgt
      rw [← hs1]
      nlinarith [hs0, hgt]
    · intro hgt
      by_contra hle
      push_neg at hle
      rw [← hs1] at hgt
      nlinarith [hs0, hle, hgt]
  have hcast : ((NBA.distSqToBasket shooter : ℚ) : ℝ) =
      ((sqrtFn (NBA.distSqToBasket shooter) : ℚ) : ℝ) ^ 2 := by
    exact_mod_cast hs1.symm
  refine ⟨?_, hiff, ?_⟩
  · rw [hcast, Real.sqrt_sq (by exact_mod_cast hs0)]
  · rcases NBA.shotPhase_ok_elim hsp with ⟨hno, _, _⟩ |
      ⟨_, shooter2, hget2, hgs, _⟩
    · exact absurd hatt hno
    · rw [hget2] at hget
      injection hget with he
      rw [he] at hgs
      subst hgs
      rw [(NBA.shotOutcomeGS_fields sqrtFn r gs shooter).2.2, if_pos hmade]
      by_cases h3 : NBA.distSqToBasket shooter > (95/4) ^ 2
      · rw [if_pos (hiff.mpr h3), if_pos h3]
      · rw [if_neg (fun hc => h3 (hiff.mp hc)), if_neg h3]

/-- C6 witness: the spec's two scenarios — a forced make by a shooter at
(0, 25) (distance 19.5 < 23.75) scores exactly 2, and by a shooter at
(0, 30) (distance 24.5 > 23.75) scores exactly 3. -/
theorem simulate_shot_distance_scoring_witness :
    NBA.gsOut2pt.score_home = 2 ∧ NBA.gsOut3pt.score_home = 3 := by
  constructor
  · have h := simulate_shot_distance_scoring NBA.sqrt2pt NBA.shootRand
      NBA.testGS NBA.players2pt NBA.gsOut2pt NBA.ps2ptOut
      (NBA.playerAt "PG" "PG" 0 25)
      (by norm_num [NBA.shootRand])
      (by simp [NBA.players2pt, NBA.playerAt, NBA.clearFlags, NBA.shootRand])
      (by norm_num [NBA.sqrt2pt, NBA.distSqToBasket, NBA.playerAt])
      (by norm_num [NBA.sqrt2pt, NBA.distSqToBasket, NBA.playerAt])
      (by norm_num [NBA.sqrt2pt, NBA.distSqToBasket, NBA.playerAt,
        NBA.shot_probability, NBA.shootRand, max_def])
      (by
        simp [NBA.simulate_game_update, NBA.shotPhase, NBA.shotOutcomeGS,
          NBA.clockStep, NBA.clearFlags, NBA.testGS, NBA.players2pt,
          NBA.playerAt, NBA.mv0, NBA.shootRand, NBA.sqrt2pt, NBA.gsOut2pt,
          NBA.ps2ptOut, NBA.shot_probability, NBA.distSqToBasket,
          NBA.moveLoop, NBA.movePlayer, NBA.roleTarget, NBA.consOk]
        norm_num [max_def, min_def]
        simp [NBA.moveLoop, NBA.movePlayer, NBA.roleTarget, NBA.consOk,
          NBA.clearFlags, NBA.mv0, NBA.sqrt2pt]
        norm_num [max_def, min_def])
    exact h.2.2.trans
      (by norm_num [NBA.testGS, NBA.distSqToBasket, NBA.playerAt])
  · have h := simulate_shot_distance_scoring NBA.sqrt3pt NBA.shootRand
      NBA.testGS NBA.testPlayers NBA.gsOut3pt NBA.ps3ptOut
      (NBA.playerAt "PG" "PG" 0 30)
      (by norm_num [NBA.shootRand])
      (by simp [NBA.testPlayers, NBA.playerAt, NBA.clearFlags, NBA.shootRand])
      (by norm_num [NBA.sqrt3pt, NBA.distSqToBasket, NBA.playerAt])
      (by norm_num [NBA.sqrt3pt, NBA.distSqToBasket, NBA.playerAt])
      (by norm_num [NBA.sqrt3pt, NBA.distSqToBasket, NBA.playerAt,
        NBA.shot_probability, NBA.shootRand, max_def])
      (by
        simp [NBA.simulate_game_update, NBA.shotPhase, NBA.shotOutcomeGS,
          NBA.clockStep, NBA.clearFlags, NBA.testGS, NBA.testPlayers,
          NBA.playerAt, NBA.mv0, NBA.shootRand, NBA.sqrt3pt, NBA.gsOut3pt,
          NBA.ps3ptOut, NBA.shot_probability, NBA.distSqToBasket,
          NBA.moveLoop, NBA.movePlayer, NBA.roleTarget, NBA.consOk]
        norm_num [max_def, min_def]
        simp [NBA.moveLoop, NBA.movePlayer, NBA.roleTarget, NBA.consOk,
          NBA.clearFlags, NBA.mv0, NBA.sqrt3pt]
        norm_num [max_def, min_def])
    exact h.2.2.trans
      (by norm_num [NBA.testGS, NBA.distSqToBasket, NBA.playerAt])

/-- C10: the movement step of the tick is well-defined only when every
non-shooting player's role is one of PG, SG, C: (i) if the first
non-shooting player in the list (everything before it is a skipped shooter)
has any other role, the loop fails with the unbound-variable error;
(ii) an unknown role contributes no target of its own — the role branch
returns the previous assignment; (iii) so a later unknown-role player
silently reuses the previous player's target and the loop proceeds with it;
(iv) under the precondition the movement loop always succeeds, and (v) a
whole tick on known-role players (non-empty when a shot is attempted)
succeeds. -/
theorem movement_role_precondition (sqrtFn : ℚ → ℚ)
    (moves : ℕ → NBA.MoveRand) :
    (∀ (pre : List NBA.Player) (p : NBA.Player) (ps : List NBA.Player)
        (j : ℕ),
      (∀ q ∈ pre, q.is_shooting = true) → p.is_shooting = false →
      p.role ∉ (["PG", "SG", "C"] : List String) →
      NBA.moveLoop sqrtFn moves j none (pre ++ p :: ps) =
        Except.error NBA.TickErr.unboundTarget) ∧
    (∀ (m : NBA.MoveRand) (role : String) (last : Option (ℚ × ℚ)),
      role ∉ (["PG", "SG", "C"] : List String) →
      NBA.roleTarget m role last = last) ∧
    (∀ (p : NBA.Player) (ps : List NBA.Player) (j : ℕ) (t : ℚ × ℚ),
      p.is_shooting = false → p.role ∉ (["PG", "SG", "C"] : List String) →
      NBA.moveLoop sqrtFn moves j (some t) (p :: ps) =
        NBA.consOk (NBA.movePlayer sqrtFn (moves j) p t)
          (NBA.moveLoop sqrtFn moves (j + 1) (some t) ps)) ∧
    (∀ (ps : List NBA.Player) (j : ℕ) (last : Option (ℚ × ℚ)),
      (∀ p ∈ ps, p.is_shooting = false →
        p.role ∈ (["PG", "SG", "C"] : List String)) →
      ∃ out, NBA.moveLoop sqrtFn moves j last ps = Except.ok out) ∧
    (∀ (r : NBA.TickRand) (gs : NBA.GameState) (players : List NBA.Player),
      (∀ p ∈ players, p.role ∈ (["PG", "SG", "C"] : List String)) →
      (r.shooting_chance > 7/10 → players ≠ []) →
      ∃ gs' ps', NBA.simulate_game_update sqrtFn r gs players =
        Except.ok (gs', ps')) := by
  refine ⟨NBA.moveLoop_first_unknown sqrtFn moves,
    NBA.roleTarget_unknown, NBA.moveLoop_reuse_target sqrtFn moves,
    NBA.moveLoop_total sqrtFn moves, ?_⟩
  intro r gs players hroles hne
  obtain ⟨gs2, ps2, hsp⟩ := NBA.shotPhase_total sqrtFn r gs players hne
  have hroles2 := NBA.ps2_roles hsp hroles
  obtain ⟨out, hout⟩ := NBA.moveLoop_total sqrtFn r.moves ps2 0 none
    (fun p hp _ => hroles2 p hp)
  refine ⟨gs2, out, ?_⟩
  unfold NBA.simulate_game_update
  rw [hsp]
  simp [hout]

/-- C10 witness: with a skipped shooter in front, a power forward ("PF",
unknown to the role branch) as first non-shooting player crashes the loop;
the role branch hands an unknown role the previous target; a later
unknown-role player is moved toward the reused target; and the known-role
seeded roster makes both the movement loop and a whole tick succeed. -/
theorem movement_role_precondition_witness :
    NBA.moveLoop NBA.sqrtZero (fun _ => NBA.mv0) 0 none
        [{ NBA.playerAt "A" "PG" 0 30 with is_shooting := true },
         NBA.playerAt "B" "PF" 0 28] =
      Except.error NBA.TickErr.unboundTarget ∧
    NBA.roleTarget NBA.mv0 "PF" (some (3, 4)) = some (3, 4) ∧
    NBA.moveLoop NBA.sqrtZero (fun _ => NBA.mv0) 1 (some (3, 4))
        [NBA.playerAt "B" "PF" 0 28] =
      NBA.consOk
        (NBA.movePlayer NBA.sqrtZero NBA.mv0 (NBA.playerAt "B" "PF" 0 28)
          (3, 4))
        (NBA.moveLoop NBA.sqrtZero (fun _ => NBA.mv0) 2 (some (3, 4)) []) ∧
    (∃ out, NBA.moveLoop NBA.sqrtZero (fun _ => NBA.mv0) 0 none
        NBA.testPlayers = Except.ok out) ∧
    (∃ gs' ps', NBA.simulate_game_update NBA.sqrtZero NBA.noShotRand
        NBA.testGS NBA.testPlayers = Except.ok (gs', ps')) := by
  have h := movement_role_precondition NBA.sqrtZero (fun _ => NBA.mv0)
  refine ⟨?_, h.2.1 NBA.mv0 "PF" (some (3, 4)) (by decide), ?_, ?_, ?_⟩
  · exact h.1 [{ NBA.playerAt "A" "PG" 0 30 with is_shooting := true }]
      (NBA.playerAt "B" "PF" 0 28) [] 0
      (by intro q hq; simp at hq; subst hq; rfl) rfl (by decide)
  · exact h.2.2.1 (NBA.playerAt "B" "PF" 0 28) [] 1 (3, 4) rfl (by decide)
  · exact h.2.2.2.1 NBA.testPlayers 0 none (by decide)
  · have h5 := h.2.2.2.2 NBA.noShotRand NBA.testGS NBA.testPlayers
      (by decide) (by
        intro hc
        exact absurd hc (by norm_num [NBA.noShotRand]))
    exact h5
